import Mathlib

/-
Shallow embedding of src/aws/config.go (package aws) from the repository
aboodman/aws-sdk-go.

The Go `Config` struct stores every scalar option behind a pointer
(`*string`, `*bool`, `*int`), which distinguishes "absent" (nil) from a
present zero value; we embed each such field as `Option _`.  The three
handle-typed fields (`Credentials *credentials.Credentials`,
`HTTPClient *http.Client`, `Logger io.Writer`) are opaque references,
embedded as `Option Handle` where `Handle` enumerates the reference
identities occurring in the source (the default credential chain,
`http.DefaultClient`, `os.Stdout`) plus arbitrary other references.
-/

namespace AwsConfig

/-- Opaque reference identities for handle-typed fields.  Equality of two
`Handle` values models Go reference (pointer/interface) equality. -/
inductive Handle where
  | defaultChainCredentials : Handle
  | httpDefaultClient : Handle
  | stdout : Handle
  | other : Nat → Handle
deriving DecidableEq, Repr

/-- Embedding of the Go struct `Config` from src/aws/config.go.  Field order
and names follow the source; `nil` pointers / nil interfaces become `none`. -/
@[ext]
structure Config where
  Credentials : Option Handle
  Endpoint : Option String
  Region : Option String
  DisableSSL : Option Bool
  HTTPClient : Option Handle
  LogHTTPBody : Option Bool
  LogLevel : Option Int
  Logger : Option Handle
  MaxRetries : Option Int
  DisableParamValidation : Option Bool
  DisableComputeChecksums : Option Bool
  S3ForcePathStyle : Option Bool
deriving DecidableEq, Repr

/-- Go: `const DefaultRetries = -1`. -/
def DefaultRetries : Int := -1

/-- Go: `os.Getenv` returns the empty string when the variable is unset.
`env` maps a variable name to its value when set. -/
def osGetenv (env : String → Option String) (key : String) : String :=
  (env key).getD ""

/-- Embedding of the Go package-level variable `DefaultConfig`, parameterised
by the process environment read at initialisation time.  Field values follow
src/aws/config.go lines 35-48 literally: `String(...)`, `Bool(false)`,
`Int(0)`, `Int(DefaultRetries)` box present values, so every field is
present (`some`). -/
def DefaultConfig (env : String → Option String) : Config :=
  { Credentials := some Handle.defaultChainCredentials
    Endpoint := some ""
    Region := some (osGetenv env "AWS_REGION")
    DisableSSL := some false
    HTTPClient := some Handle.httpDefaultClient
    LogHTTPBody := some false
    LogLevel := some 0
    Logger := some Handle.stdout
    MaxRetries := some DefaultRetries
    DisableParamValidation := some false
    DisableComputeChecksums := some false
    S3ForcePathStyle := some false }

/-- Embedding of Go `func (c Config) Copy() Config { dst := c; return dst }`:
a value copy of the struct. -/
def Config.Copy (c : Config) : Config :=
  let dst := c
  dst

/-- Embedding of Go `func (c Config) Merge(newcfg *Config) *Config`.
The receiver is passed by value; `newcfg` is a possibly-nil pointer, so it
becomes `Option Config`.  The body copies the receiver into `cfg`, then for
each field assigns `newcfg`'s value whenever that value is non-nil, and
returns the accumulated `cfg`. -/
def Config.Merge (c : Config) (newcfg : Option Config) : Config :=
  let cfg := c
  match newcfg with
  | none => cfg
  | some n =>
    let cfg := if n.Credentials.isSome then { cfg with Credentials := n.Credentials } else cfg
    let cfg := if n.Endpoint.isSome then { cfg with Endpoint := n.Endpoint } else cfg
    let cfg := if n.Region.isSome then { cfg with Region := n.Region } else cfg
    let cfg := if n.DisableSSL.isSome then { cfg with DisableSSL := n.DisableSSL } else cfg
    let cfg := if n.HTTPClient.isSome then { cfg with HTTPClient := n.HTTPClient } else cfg
    let cfg := if n.LogHTTPBody.isSome then { cfg with LogHTTPBody := n.LogHTTPBody } else cfg
    let cfg := if n.LogLevel.isSome then { cfg with LogLevel := n.LogLevel } else cfg
    let cfg := if n.Logger.isSome then { cfg with Logger := n.Logger } else cfg
    let cfg := if n.MaxRetries.isSome then { cfg with MaxRetries := n.MaxRetries } else cfg
    let cfg := if n.DisableParamValidation.isSome then { cfg with DisableParamValidation := n.DisableParamValidation } else cfg
    let cfg := if n.DisableComputeChecksums.isSome then { cfg with DisableComputeChecksums := n.DisableComputeChecksums } else cfg
    let cfg := if n.S3ForcePathStyle.isSome then { cfg with S3ForcePathStyle := n.S3ForcePathStyle } else cfg
    cfg

/-- Dereference a possibly-nil pointer to a config and project a field:
`none` (nil pointer) gives no override value for any field. -/
def derefField {α : Type} (g : Config → Option α) : Option Config → Option α
  | none => none
  | some o => g o

/-- A store of `Config` structs addressed by natural numbers, modelling the
Go heap locations that `*Config` pointers refer to. -/
def Heap : Type := Nat → Option Config

/-- Dereference a possibly-nil `*Config` pointer against a heap. -/
def derefConfig (h : Heap) : Option Nat → Option Config
  | none => none
  | some p => h p

/-- Memory-level embedding of the body of `Config.Merge`: the receiver `c`
arrives by value, the pointer argument is dereferenced (read only — the body
never assigns through `newcfg`), the local `cfg` is computed, and `return
&cfg` publishes it at a fresh address.  Returns the updated heap and the
address of the result. -/
def mergeHeap (h : Heap) (c : Config) (ptr : Option Nat) (fresh : Nat) : Heap × Nat :=
  let cfg := c.Merge (derefConfig h ptr)
  (fun a => if a = fresh then some cfg else h a, fresh)

/-- Go field assignment `p.Region = v` on the struct stored at address `p`. -/
def setRegionAt (h : Heap) (p : Nat) (v : Option String) : Heap :=
  fun a => if a = p then (h a).map (fun c => { c with Region := v }) else h a

/-- Go field assignment `p.Endpoint = v` on the struct stored at address `p`. -/
def setEndpointAt (h : Heap) (p : Nat) (v : Option String) : Heap :=
  fun a => if a = p then (h a).map (fun c => { c with Endpoint := v }) else h a

/-- Go field assignment `p.DisableSSL = v` on the struct stored at address `p`. -/
def setDisableSSLAt (h : Heap) (p : Nat) (v : Option Bool) : Heap :=
  fun a => if a = p then (h a).map (fun c => { c with DisableSSL := v }) else h a

/-- Go field assignment `p.MaxRetries = v` on the struct stored at address `p`. -/
def setMaxRetriesAt (h : Heap) (p : Nat) (v : Option Int) : Heap :=
  fun a => if a = p then (h a).map (fun c => { c with MaxRetries := v }) else h a

/-- State of the external log sinks: each opaque writer handle names a sink
holding the sequence of messages written to it so far. -/
def SinkHeap : Type := Handle → List String

/-- Write `msg` through the writer handle `hd`: only the sink that `hd`
refers to changes. -/
def writeLog (s : SinkHeap) (hd : Handle) (msg : String) : SinkHeap :=
  fun x => if x = hd then s x ++ [msg] else s x

/-- A concrete base config used to instantiate the universally quantified
theorems below at a specific input. -/
def exBase : Config :=
  { Credentials := none
    Endpoint := some "https://example.test"
    Region := some "us-east-1"
    DisableSSL := some true
    HTTPClient := none
    LogHTTPBody := none
    LogLevel := some 2
    Logger := some Handle.stdout
    MaxRetries := some 3
    DisableParamValidation := none
    DisableComputeChecksums := none
    S3ForcePathStyle := none }

/-- A concrete override config whose present fields all hold falsy values. -/
def exOverride : Config :=
  { Credentials := none
    Endpoint := some ""
    Region := none
    DisableSSL := some false
    HTTPClient := none
    LogHTTPBody := none
    LogLevel := some 0
    Logger := none
    MaxRetries := some 0
    DisableParamValidation := none
    DisableComputeChecksums := none
    S3ForcePathStyle := none }

/-- A concrete heap: the base at address 0 and the override at address 1. -/
def exHeap : Heap :=
  fun a => if a = 0 then some exBase else if a = 1 then some exOverride else none

/-- A concrete heap: the base at address 0 and its shallow copy at address 1. -/
def exHeapCopy : Heap :=
  fun a => if a = 0 then some exBase else if a = 1 then some exBase.Copy else none

/-- A concrete sink state with every sink empty. -/
def exSink : SinkHeap := fun _ => []

/-- A process environment with no variable set. -/
def emptyEnv : String → Option String := fun _ => none

end AwsConfig

namespace AwsConfig

theorem merge_some_Credentials (c n : Config) :
    (c.Merge (some n)).Credentials =
      if n.Credentials.isSome then n.Credentials else c.Credentials := by
  simp only [Config.Merge, apply_ite (f := Config.Credentials), ite_self]

theorem merge_some_Endpoint (c n : Config) :
    (c.Merge (some n)).Endpoint =
      if n.Endpoint.isSome then n.Endpoint else c.Endpoint := by
  simp only [Config.Merge, apply_ite (f := Config.Endpoint), ite_self]

theorem merge_some_Region (c n : Config) :
    (c.Merge (some n)).Region =
      if n.Region.isSome then n.Region else c.Region := by
  simp only [Config.Merge, apply_ite (f := Config.Region), ite_self]

theorem merge_some_DisableSSL (c n : Config) :
    (c.Merge (some n)).DisableSSL =
      if n.DisableSSL.isSome then n.DisableSSL else c.DisableSSL := by
  simp only [Config.Merge, apply_ite (f := Config.DisableSSL), ite_self]

theorem merge_some_HTTPClient (c n : Config) :
    (c.Merge (some n)).HTTPClient =
      if n.HTTPClient.isSome then n.HTTPClient else c.HTTPClient := by
  simp only [Config.Merge, apply_ite (f := Config.HTTPClient), ite_self]

theorem merge_some_LogHTTPBody (c n : Config) :
    (c.Merge (some n)).LogHTTPBody =
      if n.LogHTTPBody.isSome then n.LogHTTPBody else c.LogHTTPBody := by
  simp only [Config.Merge, apply_ite (f := Config.LogHTTPBody), ite_self]

theorem merge_some_LogLevel (c n : Config) :
    (c.Merge (some n)).LogLevel =
      if n.LogLevel.isSome then n.LogLevel else c.LogLevel := by
  simp only [Config.Merge, apply_ite (f := Config.LogLevel), ite_self]

theorem merge_some_Logger (c n : Config) :
    (c.Merge (some n)).Logger =
      if n.Logger.isSome then n.Logger else c.Logger := by
  simp only [Config.Merge, apply_ite (f := Config.Logger), ite_self]

theorem merge_some_MaxRetries (c n : Config) :
    (c.Merge (some n)).MaxRetries =
      if n.MaxRetries.isSome then n.MaxRetries else c.MaxRetries := by
  simp only [Config.Merge, apply_ite (f := Config.MaxRetries), ite_self]

theorem merge_some_DisableParamValidation (c n : Config) :
    (c.Merge (some n)).DisableParamValidation =
      if n.DisableParamValidation.isSome then n.DisableParamValidation
      else c.DisableParamValidation := by
  simp only [Config.Merge, apply_ite (f := Config.DisableParamValidation), ite_self]

theorem merge_some_DisableComputeChecksums (c n : Config) :
    (c.Merge (some n)).DisableComputeChecksums =
      if n.DisableComputeChecksums.isSome then n.DisableComputeChecksums
      else c.DisableComputeChecksums := by
  simp only [Config.Merge, apply_ite (f := Config.DisableComputeChecksums), ite_self]

theorem merge_some_S3ForcePathStyle (c n : Config) :
    (c.Merge (some n)).S3ForcePathStyle =
      if n.S3ForcePathStyle.isSome then n.S3ForcePathStyle
      else c.S3ForcePathStyle := by
  simp only [Config.Merge, apply_ite (f := Config.S3ForcePathStyle), ite_self]

/-- Claim C4: a nil override is a no-op — `Merge(base, nil)` returns exactly
the shallow copy of `base` that `Copy` returns, and both operations are total
Lean functions, hence have no error condition on any input. -/
theorem merge_absent_eq_copy (b : Config) : b.Merge none = b.Copy := rfl

/-- Claim C5: `Copy` (the spec's Duplicate) returns a config field-wise equal
to its argument; being a pure function it has no side effect on `c`. -/
theorem copy_fieldwise_eq (c : Config) : c.Copy = c := rfl

/-- Claim C8: the default instance has logger = the process standard output
stream, logLevel present and 0, maxRetries present and the sentinel -1,
endpoint the (present) empty string, and every boolean toggle present and
false, for every process environment. -/
theorem defaultConfig_defaults (env : String → Option String) :
    (DefaultConfig env).Logger = some Handle.stdout ∧
    (DefaultConfig env).LogLevel = some 0 ∧
    (DefaultConfig env).MaxRetries = some (-1) ∧
    (DefaultConfig env).Endpoint = some "" ∧
    (DefaultConfig env).DisableSSL = some false ∧
    (DefaultConfig env).LogHTTPBody = some false ∧
    (DefaultConfig env).DisableParamValidation = some false ∧
    (DefaultConfig env).DisableComputeChecksums = some false ∧
    (DefaultConfig env).S3ForcePathStyle = some false := by
  refine ⟨rfl, rfl, rfl, rfl, rfl, rfl, rfl, rfl, rfl⟩

theorem merge_opt_Credentials (c : Config) (ov : Option Config) :
    (c.Merge ov).Credentials =
      if (derefField Config.Credentials ov).isSome then derefField Config.Credentials ov
      else c.Credentials := by
  cases ov with
  | none => rfl
  | some n => exact merge_some_Credentials c n

theorem merge_opt_Endpoint (c : Config) (ov : Option Config) :
    (c.Merge ov).Endpoint =
      if (derefField Config.Endpoint ov).isSome then derefField Config.Endpoint ov
      else c.Endpoint := by
  cases ov with
  | none => rfl
  | some n => exact merge_some_Endpoint c n

theorem merge_opt_Region (c : Config) (ov : Option Config) :
    (c.Merge ov).Region =
      if (derefField Config.Region ov).isSome then derefField Config.Region ov
      else c.Region := by
  cases ov with
  | none => rfl
  | some n => exact merge_some_Region c n

theorem merge_opt_DisableSSL (c : Config) (ov : Option Config) :
    (c.Merge ov).DisableSSL =
      if (derefField Config.DisableSSL ov).isSome then derefField Config.DisableSSL ov
      else c.DisableSSL := by
  cases ov with
  | none => rfl
  | some n => exact merge_some_DisableSSL c n

theorem merge_opt_HTTPClient (c : Config) (ov : Option Config) :
    (c.Merge ov).HTTPClient =
      if (derefField Config.HTTPClient ov).isSome then derefField Config.HTTPClient ov
      else c.HTTPClient := by
  cases ov with
  | none => rfl
  | some n => exact merge_some_HTTPClient c n

theorem merge_opt_LogHTTPBody (c : Config) (ov : Option Config) :
    (c.Merge ov).LogHTTPBody =
      if (derefField Config.LogHTTPBody ov).isSome then derefField Config.LogHTTPBody ov
      else c.LogHTTPBody := by
  cases ov with
  | none => rfl
  | some n => exact merge_some_LogHTTPBody c n

theorem merge_opt_LogLevel (c : Config) (ov : Option Config) :
    (c.Merge ov).LogLevel =
      if (derefField Config.LogLevel ov).isSome then derefField Config.LogLevel ov
      else c.LogLevel := by
  cases ov with
  | none => rfl
  | some n => exact merge_some_LogLevel c n

theorem merge_opt_Logger (c : Config) (ov : Option Config) :
    (c.Merge ov).Logger =
      if (derefField Config.Logger ov).isSome then derefField Config.Logger ov
      else c.Logger := by
  cases ov with
  | none => rfl
  | some n => exact merge_some_Logger c n

theorem merge_opt_MaxRetries (c : Config) (ov : Option Config) :
    (c.Merge ov).MaxRetries =
      if (derefField Config.MaxRetries ov).isSome then derefField Config.MaxRetries ov
      else c.MaxRetries := by
  cases ov with
  | none => rfl
  | some n => exact merge_some_MaxRetries c n

theorem merge_opt_DisableParamValidation (c : Config) (ov : Option Config) :
    (c.Merge ov).DisableParamValidation =
      if (derefField Config.DisableParamValidation ov).isSome
      then derefField Config.DisableParamValidation ov
      else c.DisableParamValidation := by
  cases ov with
  | none => rfl
  | some n => exact merge_some_DisableParamValidation c n

theorem merge_opt_DisableComputeChecksums (c : Config) (ov : Option Config) :
    (c.Merge ov).DisableComputeChecksums =
      if (derefField Config.DisableComputeChecksums ov).isSome
      then derefField Config.DisableComputeChecksums ov
      else c.DisableComputeChecksums := by
  cases ov with
  | none => rfl
  | some n => exact merge_some_DisableComputeChecksums c n

theorem merge_opt_S3ForcePathStyle (c : Config) (ov : Option Config) :
    (c.Merge ov).S3ForcePathStyle =
      if (derefField Config.S3ForcePathStyle ov).isSome
      then derefField Config.S3ForcePathStyle ov
      else c.S3ForcePathStyle := by
  cases ov with
  | none => rfl
  | some n => exact merge_some_S3ForcePathStyle c n

theorem ite_override_idem {α : Type} (p : Prop) [Decidable p] (x y : Option α) :
    (if p then x else if p then x else y) = if p then x else y := by
  by_cases h : p <;> simp [h]

/-- Claim C1: for every base and every non-nil override, each field of the
merge result is the override's field when that field is present, and the
base's field otherwise. -/
theorem merge_fieldwise_override (b ov : Config) :
    ((b.Merge (some ov)).Credentials =
       if ov.Credentials.isSome then ov.Credentials else b.Credentials) ∧
    ((b.Merge (some ov)).Endpoint =
       if ov.Endpoint.isSome then ov.Endpoint else b.Endpoint) ∧
    ((b.Merge (some ov)).Region =
       if ov.Region.isSome then ov.Region else b.Region) ∧
    ((b.Merge (some ov)).DisableSSL =
       if ov.DisableSSL.isSome then ov.DisableSSL else b.DisableSSL) ∧
    ((b.Merge (some ov)).HTTPClient =
       if ov.HTTPClient.isSome then ov.HTTPClient else b.HTTPClient) ∧
    ((b.Merge (some ov)).LogHTTPBody =
       if ov.LogHTTPBody.isSome then ov.LogHTTPBody else b.LogHTTPBody) ∧
    ((b.Merge (some ov)).LogLevel =
       if ov.LogLevel.isSome then ov.LogLevel else b.LogLevel) ∧
    ((b.Merge (some ov)).Logger =
       if ov.Logger.isSome then ov.Logger else b.Logger) ∧
    ((b.Merge (some ov)).MaxRetries =
       if ov.MaxRetries.isSome then ov.MaxRetries else b.MaxRetries) ∧
    ((b.Merge (some ov)).DisableParamValidation =
       if ov.DisableParamValidation.isSome then ov.DisableParamValidation
       else b.DisableParamValidation) ∧
    ((b.Merge (some ov)).DisableComputeChecksums =
       if ov.DisableComputeChecksums.isSome then ov.DisableComputeChecksums
       else b.DisableComputeChecksums) ∧
    ((b.Merge (some ov)).S3ForcePathStyle =
       if ov.S3ForcePathStyle.isSome then ov.S3ForcePathStyle
       else b.S3ForcePathStyle) :=
  ⟨merge_some_Credentials b ov, merge_some_Endpoint b ov, merge_some_Region b ov,
   merge_some_DisableSSL b ov, merge_some_HTTPClient b ov, merge_some_LogHTTPBody b ov,
   merge_some_LogLevel b ov, merge_some_Logger b ov, merge_some_MaxRetries b ov,
   merge_some_DisableParamValidation b ov, merge_some_DisableComputeChecksums b ov,
   merge_some_S3ForcePathStyle b ov⟩

/-- Claim C2: an explicitly present but falsy override value wins over the
base: a present `false` for disableSSL overrides a base `true`, a present
`0` for logLevel or maxRetries overrides the base integer, and a present
empty string for endpoint overrides the base string. -/
theorem merge_falsy_override_wins (b ov : Config) :
    (b.DisableSSL = some true → ov.DisableSSL = some false →
      (b.Merge (some ov)).DisableSSL = some false) ∧
    (ov.LogLevel = some 0 → (b.Merge (some ov)).LogLevel = some 0) ∧
    (ov.Endpoint = some "" → (b.Merge (some ov)).Endpoint = some "") ∧
    (ov.MaxRetries = some 0 → (b.Merge (some ov)).MaxRetries = some 0) := by
  refine ⟨fun _ hov => ?_, fun hov => ?_, fun hov => ?_, fun hov => ?_⟩
  · rw [merge_some_DisableSSL, hov]; rfl
  · rw [merge_some_LogLevel, hov]; rfl
  · rw [merge_some_Endpoint, hov]; rfl
  · rw [merge_some_MaxRetries, hov]; rfl

/-- Witness for claim C2 at the concrete base (disableSSL true, logLevel 2,
maxRetries 3, non-empty endpoint) and the concrete falsy override. -/
theorem merge_falsy_override_wins_witness :
    (exBase.Merge (some exOverride)).DisableSSL = some false ∧
    (exBase.Merge (some exOverride)).LogLevel = some 0 ∧
    (exBase.Merge (some exOverride)).Endpoint = some "" ∧
    (exBase.Merge (some exOverride)).MaxRetries = some 0 :=
  ⟨(merge_falsy_override_wins exBase exOverride).1 rfl rfl,
   (merge_falsy_override_wins exBase exOverride).2.1 rfl,
   (merge_falsy_override_wins exBase exOverride).2.2.1 rfl,
   (merge_falsy_override_wins exBase exOverride).2.2.2 rfl⟩

/-- Claim C9: merging the same override twice gives the same result as
merging it once, for nil and non-nil overrides alike. -/
theorem merge_idempotent (b : Config) (ov : Option Config) :
    (b.Merge ov).Merge ov = b.Merge ov := by
  cases ov with
  | none => rfl
  | some n =>
    apply Config.ext
    · simp only [merge_some_Credentials]; exact ite_override_idem _ _ _
    · simp only [merge_some_Endpoint]; exact ite_override_idem _ _ _
    · simp only [merge_some_Region]; exact ite_override_idem _ _ _
    · simp only [merge_some_DisableSSL]; exact ite_override_idem _ _ _
    · simp only [merge_some_HTTPClient]; exact ite_override_idem _ _ _
    · simp only [merge_some_LogHTTPBody]; exact ite_override_idem _ _ _
    · simp only [merge_some_LogLevel]; exact ite_override_idem _ _ _
    · simp only [merge_some_Logger]; exact ite_override_idem _ _ _
    · simp only [merge_some_MaxRetries]; exact ite_override_idem _ _ _
    · simp only [merge_some_DisableParamValidation]; exact ite_override_idem _ _ _
    · simp only [merge_some_DisableComputeChecksums]; exact ite_override_idem _ _ _
    · simp only [merge_some_S3ForcePathStyle]; exact ite_override_idem _ _ _

/-- Claim C10: merge treats fields independently — for each field, two runs
whose bases agree on that field and whose (possibly nil) overrides agree on
that field produce results agreeing on that field, whatever the other
fields hold. -/
theorem merge_field_independent (b1 b2 : Config) (ov1 ov2 : Option Config) :
    (b1.Credentials = b2.Credentials →
      derefField Config.Credentials ov1 = derefField Config.Credentials ov2 →
      (b1.Merge ov1).Credentials = (b2.Merge ov2).Credentials) ∧
    (b1.Endpoint = b2.Endpoint →
      derefField Config.Endpoint ov1 = derefField Config.Endpoint ov2 →
      (b1.Merge ov1).Endpoint = (b2.Merge ov2).Endpoint) ∧
    (b1.Region = b2.Region →
      derefField Config.Region ov1 = derefField Config.Region ov2 →
      (b1.Merge ov1).Region = (b2.Merge ov2).Region) ∧
    (b1.DisableSSL = b2.DisableSSL →
      derefField Config.DisableSSL ov1 = derefField Config.DisableSSL ov2 →
      (b1.Merge ov1).DisableSSL = (b2.Merge ov2).DisableSSL) ∧
    (b1.HTTPClient = b2.HTTPClient →
      derefField Config.HTTPClient ov1 = derefField Config.HTTPClient ov2 →
      (b1.Merge ov1).HTTPClient = (b2.Merge ov2).HTTPClient) ∧
    (b1.LogHTTPBody = b2.LogHTTPBody →
      derefField Config.LogHTTPBody ov1 = derefField Config.LogHTTPBody ov2 →
      (b1.Merge ov1).LogHTTPBody = (b2.Merge ov2).LogHTTPBody) ∧
    (b1.LogLevel = b2.LogLevel →
      derefField Config.LogLevel ov1 = derefField Config.LogLevel ov2 →
      (b1.Merge ov1).LogLevel = (b2.Merge ov2).LogLevel) ∧
    (b1.Logger = b2.Logger →
      derefField Config.Logger ov1 = derefField Config.Logger ov2 →
      (b1.Merge ov1).Logger = (b2.Merge ov2).Logger) ∧
    (b1.MaxRetries = b2.MaxRetries →
      derefField Config.MaxRetries ov1 = derefField Config.MaxRetries ov2 →
      (b1.Merge ov1).MaxRetries = (b2.Merge ov2).MaxRetries) ∧
    (b1.DisableParamValidation = b2.DisableParamValidation →
      derefField Config.DisableParamValidation ov1 =
        derefField Config.DisableParamValidation ov2 →
      (b1.Merge ov1).DisableParamValidation = (b2.Merge ov2).DisableParamValidation) ∧
    (b1.DisableComputeChecksums = b2.DisableComputeChecksums →
      derefField Config.DisableComputeChecksums ov1 =
        derefField Config.DisableComputeChecksums ov2 →
      (b1.Merge ov1).DisableComputeChecksums = (b2.Merge ov2).DisableComputeChecksums) ∧
    (b1.S3ForcePathStyle = b2.S3ForcePathStyle →
      derefField Config.S3ForcePathStyle ov1 = derefField Config.S3ForcePathStyle ov2 →
      (b1.Merge ov1).S3ForcePathStyle = (b2.Merge ov2).S3ForcePathStyle) :=
  ⟨fun hb hov => by rw [merge_opt_Credentials, merge_opt_Credentials, hb, hov],
   fun hb hov => by rw [merge_opt_Endpoint, merge_opt_Endpoint, hb, hov],
   fun hb hov => by rw [merge_opt_Region, merge_opt_Region, hb, hov],
   fun hb hov => by rw [merge_opt_DisableSSL, merge_opt_DisableSSL, hb, hov],
   fun hb hov => by rw [merge_opt_HTTPClient, merge_opt_HTTPClient, hb, hov],
   fun hb hov => by rw [merge_opt_LogHTTPBody, merge_opt_LogHTTPBody, hb, hov],
   fun hb hov => by rw [merge_opt_LogLevel, merge_opt_LogLevel, hb, hov],
   fun hb hov => by rw [merge_opt_Logger, merge_opt_Logger, hb, hov],
   fun hb hov => by rw [merge_opt_MaxRetries, merge_opt_MaxRetries, hb, hov],
   fun hb hov => by
     rw [merge_opt_DisableParamValidation, merge_opt_DisableParamValidation, hb, hov],
   fun hb hov => by
     rw [merge_opt_DisableComputeChecksums, merge_opt_DisableComputeChecksums, hb, hov],
   fun hb hov => by rw [merge_opt_S3ForcePathStyle, merge_opt_S3ForcePathStyle, hb, hov]⟩

/-- Witness for claim C10: the concrete override leaves region absent, so a
run merging it and a run merging a nil override produce the same region. -/
theorem merge_field_independent_witness :
    (exBase.Merge (some exOverride)).Region = (exBase.Merge none).Region :=
  (merge_field_independent exBase exBase (some exOverride) none).2.2.1 rfl rfl

/-- Claim C3: at the memory level, Merge mutates neither argument.  The
override stored at address `p` is unchanged, every address other than the
fresh result address is unchanged (so the caller's base struct, stored
wherever it is, keeps all its field values), and the result is a new
instance published at the previously unallocated fresh address. -/
theorem merge_no_mutation (h : Heap) (c ov : Config) (p fresh : Nat)
    (hp : h p = some ov) (hfresh : h fresh = none) :
    (mergeHeap h c (some p) fresh).1 p = some ov ∧
    (∀ a, a ≠ fresh → (mergeHeap h c (some p) fresh).1 a = h a) ∧
    (mergeHeap h c (some p) fresh).1 (mergeHeap h c (some p) fresh).2 =
      some (c.Merge (some ov)) := by
  have hpf : p ≠ fresh := by
    intro e
    rw [e, hfresh] at hp
    exact Option.noConfusion hp
  refine ⟨?_, ?_, ?_⟩
  · simp [mergeHeap, hpf, hp]
  · intro a ha
    simp [mergeHeap, ha]
  · simp [mergeHeap, derefConfig, hp]

/-- Witness for claim C3 on a concrete heap holding the base at address 0
and the override at address 1, with 2 as the fresh result address. -/
theorem merge_no_mutation_witness :
    (mergeHeap exHeap exBase (some 1) 2).1 1 = some exOverride ∧
    (mergeHeap exHeap exBase (some 1) 2).1 0 = exHeap 0 ∧
    (mergeHeap exHeap exBase (some 1) 2).1 2 = some (exBase.Merge (some exOverride)) :=
  ⟨(merge_no_mutation exHeap exBase exOverride 1 2 rfl rfl).1,
   (merge_no_mutation exHeap exBase exOverride 1 2 rfl rfl).2.1 0 (by decide),
   (merge_no_mutation exHeap exBase exOverride 1 2 rfl rfl).2.2⟩

/-- Claim C6: after a shallow copy, the scalar optional fields have
independent storage — assigning region, endpoint, a boolean or an integer
field on the struct at the duplicate's address leaves the source struct
intact — while the handle fields of the copy are the same references as the
source's, so a message written through the duplicate's logger handle lands
in the one sink that the source's logger handle also names. -/
theorem copy_scalar_independent_handles_shared
    (hp : Heap) (src dup : Nat) (c : Config) (v e : Option String)
    (bv : Option Bool) (iv : Option Int) (s : SinkHeap) (msg : String) (hd : Handle)
    (hne : src ≠ dup) (hsrc : hp src = some c) (hdup : hp dup = some c.Copy)
    (hlog : c.Logger = some hd) :
    setRegionAt hp dup v src = some c ∧
    setEndpointAt hp dup e src = some c ∧
    setDisableSSLAt hp dup bv src = some c ∧
    setMaxRetriesAt hp dup iv src = some c ∧
    setRegionAt hp dup v dup = some { c.Copy with Region := v } ∧
    c.Copy.Credentials = c.Credentials ∧
    c.Copy.HTTPClient = c.HTTPClient ∧
    c.Copy.Logger = c.Logger ∧
    c.Copy.Logger = some hd ∧
    writeLog s hd msg hd = s hd ++ [msg] := by
  refine ⟨?_, ?_, ?_, ?_, ?_, rfl, rfl, rfl, hlog, ?_⟩
  · simp [setRegionAt, hne, hsrc]
  · simp [setEndpointAt, hne, hsrc]
  · simp [setDisableSSLAt, hne, hsrc]
  · simp [setMaxRetriesAt, hne, hsrc]
  · simp [setRegionAt, hdup]
  · simp [writeLog]

/-- Witness for claim C6 on a concrete heap holding the base at address 0
and its shallow copy at address 1, with the empty sink state. -/
theorem copy_scalar_independent_handles_shared_witness :
    setRegionAt exHeapCopy 1 (some "eu-west-1") 0 = some exBase ∧
    setRegionAt exHeapCopy 1 (some "eu-west-1") 1 =
      some { exBase.Copy with Region := some "eu-west-1" } ∧
    exBase.Copy.Logger = exBase.Logger ∧
    writeLog exSink Handle.stdout "m" Handle.stdout = exSink Handle.stdout ++ ["m"] :=
  ⟨(copy_scalar_independent_handles_shared exHeapCopy 0 1 exBase
      (some "eu-west-1") none none none exSink "m" Handle.stdout
      (by decide) rfl rfl rfl).1,
   (copy_scalar_independent_handles_shared exHeapCopy 0 1 exBase
      (some "eu-west-1") none none none exSink "m" Handle.stdout
      (by decide) rfl rfl rfl).2.2.2.2.1,
   (copy_scalar_independent_handles_shared exHeapCopy 0 1 exBase
      (some "eu-west-1") none none none exSink "m" Handle.stdout
      (by decide) rfl rfl rfl).2.2.2.2.2.2.2.1,
   (copy_scalar_independent_handles_shared exHeapCopy 0 1 exBase
      (some "eu-west-1") none none none exSink "m" Handle.stdout
      (by decide) rfl rfl rfl).2.2.2.2.2.2.2.2.2⟩

/-- Claim C7: the default instance's region is seeded from the one read of
the AWS_REGION environment variable, and when that variable is unset the
region is the present empty string (not absent), with no error. -/
theorem defaultConfig_region_env (env : String → Option String) :
    (DefaultConfig env).Region = some (osGetenv env "AWS_REGION") ∧
    (env "AWS_REGION" = none →
      (DefaultConfig env).Region = some "" ∧
      ((DefaultConfig env).Region).isSome = true) := by
  refine ⟨rfl, fun h => ⟨?_, rfl⟩⟩
  simp [DefaultConfig, osGetenv, h]

/-- Witness for claim C7 at the environment with no variable set. -/
theorem defaultConfig_region_env_witness :
    (DefaultConfig emptyEnv).Region = some "" :=
  ((defaultConfig_region_env emptyEnv).2 rfl).1

end AwsConfig
